import Mathlib

set_option linter.unusedVariables false

/-
Verification of the demo-rust-code repository (src/src/main.rs) against its
natural-language specification.

The program is a command-line wrapper (getopts flags -h, --help, -v,
--version) around a fixed sequence of demonstration routines.  The
repository code in src/src/main.rs is embedded faithfully below.  The external
getopts crate is not part of the repository source, so its argument parsing is
modelled from the specification (such definitions carry a doc comment starting
with the words Modelled from the spec).
-/

namespace DemoRust

/-- Recognizer for the help flag tokens, from the option table registered in
main_getopts: optflag "h" "help". -/
def isHelpTok (t : String) : Bool :=
  t == "-h" || t == "--help"

/-- Recognizer for the version flag tokens, from the option table registered in
main_getopts: optflag "v" "version". -/
def isVersionTok (t : String) : Bool :=
  t == "-v" || t == "--version"

/-- A token is recognized when it is one of the two boolean flags in either
short or long form. -/
def isRecognized (t : String) : Bool :=
  isHelpTok t || isVersionTok t

/-- Modelled from the spec: the parse failure of the option parser, named
ParseError with variant UnknownOption carrying the offending token (spec 4.1).
The concrete failure type lives in the external getopts crate, absent from the
repository source. -/
inductive ParseError where
  | UnknownOption (token : String)
deriving DecidableEq

/-- Modelled from the spec: rendering of a parse failure as the diagnostic
string that main_getopts feeds to its panic (the getopts Fail display is
external code); the spec requires only that the message name the offending
token. -/
def ParseError.to_string : ParseError → String
  | .UnknownOption tok => "Unrecognized option: " ++ tok

/-- Result of a successful option parse: which of the two registered boolean
flags were present (queried by opt_present "h" / opt_present "v"). -/
structure Matches where
  help : Bool
  version : Bool
deriving DecidableEq

/-- Modelled from the spec: getopts Options.parse over the two registered
boolean flags (spec 4.1).  Each recognized flag may occur in any position any
number of times; any other token makes the parse fail with UnknownOption
naming that token.  The getopts crate itself is external to the repository
source. -/
def optsParse : List String → Except ParseError Matches
  | [] => .ok { help := false, version := false }
  | t :: ts =>
    if isHelpTok t then
      match optsParse ts with
      | .ok m => .ok { m with help := true }
      | .error f => .error f
    else if isVersionTok t then
      match optsParse ts with
      | .ok m => .ok { m with version := true }
      | .error f => .error f
    else
      .error (.UnknownOption t)

/-- The parsed intent of an invocation (spec data model InvocationRequest). -/
inductive InvocationRequest where
  | Help
  | Version
  | Run
deriving DecidableEq

/-- The request decided by main_getopts on the argument list after the program
name: parse the arguments, then test opt_present "h" first and
opt_present "v" second, defaulting to the run path (main.rs lines 546-561). -/
def main_getopts_request (args : List String) : Except ParseError InvocationRequest :=
  match optsParse args with
  | .error f => .error f
  | .ok m =>
    if m.help then .ok .Help
    else if m.version then .ok .Version
    else .ok .Run

/-- State threaded through the demo routines: accumulated standard output,
remaining standard-input lines, contents of the auxiliary text resource file
text.txt when it exists, and the value drawn by the thread random number
generator. -/
structure DemoState where
  stdout : String
  stdin : List String
  fs : Option String
  rng : Nat
deriving DecidableEq

/-- Appending one line to standard output, as the println macro does. -/
def printLine (s : String) (st : DemoState) : DemoState :=
  { st with stdout := st.stdout ++ s ++ "\n" }

/-- Reading one line from standard input, as io stdin read_line does: at end of
input the read succeeds with nothing appended (read_line returns Ok with zero
bytes), otherwise the line and its newline are consumed.  An operating-system
level read failure is outside the model, so the read is total. -/
def readLine (st : DemoState) : String × DemoState :=
  match st.stdin with
  | [] => ("", st)
  | l :: ls => (l ++ "\n", { st with stdin := ls })

/-- Embeds demo_println (main.rs lines 151-156): prints Hello and the
interpolated greeting. -/
def demo_println (st : DemoState) : DemoState :=
  printLine "Hello Alice and Bob" (printLine "Hello" st)

/-- Embeds demo_compare (main.rs lines 285-293): compares 1 and 2 and prints
the matching Ordering arm. -/
def demo_compare (st : DemoState) : DemoState :=
  let x : Int := 1
  let y : Int := 2
  match compare x y with
  | .lt => printLine "less" st
  | .gt => printLine "greater" st
  | .eq => printLine "equal" st

/-- Rust char is_whitespace restricted to the whitespace characters that can
occur in this program (ASCII space, tab, newline, carriage return); the fixed
inputs use only the space character. -/
def isRustWhitespace (c : Char) : Bool :=
  c == ' ' || c == '\t' || c == '\n' || c == '\r'

/-- Rust str trim: drop leading and trailing whitespace. -/
def rustTrim (s : String) : String :=
  ⟨((s.data.dropWhile isRustWhitespace).reverse.dropWhile isRustWhitespace).reverse⟩

/-- Embeds demo_shadow (main.rs lines 307-312): prints the padded string, trims
it into a shadow variable, prints the trimmed string. -/
def demo_shadow (st : DemoState) : DemoState :=
  let x := "    hello     "
  let st := printLine ("x is " ++ x ++ " before trimming") st
  let x := rustTrim x
  printLine ("x is " ++ x ++ " after trimming") st

/-- Embeds demo_array_access (main.rs lines 219-224): binds the three elements
of a fixed array (all indices in bounds); no output. -/
def demo_array_access (st : DemoState) : DemoState :=
  let arr : List Int := [1, 2, 3]
  let a := arr.getD 0 0
  let b := arr.getD 1 0
  let c := arr.getD 2 0
  st

/-- Embeds demo_tuple_destructure (main.rs lines 226-229): destructures a fixed
tuple into locals; no output. -/
def demo_tuple_destructure (st : DemoState) : DemoState :=
  let tup : Int × Int × Char := (1, 1, 'x')
  let (a, b, c) := tup
  st

/-- Embeds demo_control_flow (main.rs lines 231-271): conditionals with empty
bodies, a loop and a while that break immediately, and a for over a fixed
array with an empty body; no binding escapes and nothing is printed. -/
def demo_control_flow (st : DemoState) : DemoState :=
  let a := true
  let b := true
  let c := true
  st

/-- Draw from the inclusive-exclusive range of the rand crate gen_range; the
bounds 1 and 101 are in order so the draw cannot fail. -/
def gen_range (lo hi r : Nat) : Nat :=
  lo + r % (hi - lo)

/-- Embeds demo_random_variable (main.rs lines 323-325): binds one bounded
random draw; no output. -/
def demo_random_variable (st : DemoState) : DemoState :=
  let r := gen_range 1 101 st.rng
  st

/-- Rust u32 FromStr: an optional leading plus sign followed by at least one
ASCII digit, with the value below 2 to the 32; anything else is a parse
failure, returned here as none. -/
def parseU32 (s : String) : Option Nat :=
  let cs :=
    match s.data with
    | '+' :: rest => rest
    | cs => cs
  if cs = [] then none
  else if cs.all Char.isDigit then
    let v := cs.foldl (fun acc c => acc * 10 + (c.toNat - 48)) 0
    if v < 2 ^ 32 then some v else none
  else none

/-- The match expression inside demo_result_with_error_handling (main.rs lines
384-387): a successful parse yields the number, a failed parse yields the
fallback 0. -/
def fallbackParse (s : String) : Nat :=
  match parseU32 s with
  | some num => num
  | none => 0

/-- Embeds demo_result_with_error_handling (main.rs lines 379-388): parses the
fixed text "123" with the fallback match; the bound value is local and nothing
is printed. -/
def demo_result_with_error_handling (st : DemoState) : DemoState :=
  let x := fallbackParse "123"
  st

/-- Embeds demo_string_append (main.rs lines 327-331): builds a string by
pushing a character and appending a fragment; no output. -/
def demo_string_append (st : DemoState) : DemoState :=
  let s := String.push "hello" ' '
  let s := s ++ "world"
  st

/-- Embeds demo_input (main.rs lines 396-405): prints a prompt and reads a line
ignoring the result, then prints a second prompt and reads a line with expect.
In the model the read is total (read_line succeeds even at end of input), so
the expect cannot fire. -/
def demo_input (st : DemoState) : DemoState :=
  let st := printLine "Please enter some text:" st
  let (_, st) := readLine st
  let st := printLine "Please enter some more text:" st
  let (_, st) := readLine st
  st

/-- Embeds demo_output (main.rs lines 413-420): the body is entirely commented
out, so the routine does nothing. -/
def demo_output (st : DemoState) : DemoState :=
  st

/-- The value computed inside demo_convert_a_string_to_a_number (main.rs lines
433-438): trim the padded text, parse it as u32, and crash with the message
"must be a number" on failure.  The error side is the panic of expect. -/
def convert_value : Except String Nat :=
  let x := "  123  "
  let x := rustTrim x
  match parseU32 x with
  | some n => .ok n
  | none => .error "must be a number"

/-- Embeds demo_convert_a_string_to_a_number as a step of the runner: the
routine succeeds leaving the state unchanged unless its expect panics, in
which case the panic message and the state at the panic are returned. -/
def demo_convert_run (st : DemoState) : Except (String × DemoState) DemoState :=
  match convert_value with
  | .ok _ => .ok st
  | .error m => .error (m, st)

/-- Embeds demo_file_path_to_string (main.rs lines 457-466): open text.txt and
read it into a string, with expect crashing the process when the file is
absent or unreadable.  Defined because the spec names this routine; main_run
never calls it. -/
def demo_file_path_to_string (st : DemoState) : Except (String × DemoState) DemoState :=
  match st.fs with
  | none => .error ("file open failed", st)
  | some contents =>
    let s := contents
    .ok st

/-- Names for the demonstration routines, used to state which routines the
runner executes and in which order. -/
inductive Routine where
  | rPrintln
  | rCompare
  | rShadow
  | rArrayAccess
  | rTupleDestructure
  | rControlFlow
  | rRandomVariable
  | rResultWithErrorHandling
  | rStringAppend
  | rInput
  | rOutput
  | rConvertAStringToANumber
  | rFilePathToString
deriving DecidableEq

/-- Semantics of one named routine as a step that either completes with a new
state or panics with a message and the state at the panic. -/
def routineSem : Routine → DemoState → Except (String × DemoState) DemoState
  | .rPrintln, st => .ok (demo_println st)
  | .rCompare, st => .ok (demo_compare st)
  | .rShadow, st => .ok (demo_shadow st)
  | .rArrayAccess, st => .ok (demo_array_access st)
  | .rTupleDestructure, st => .ok (demo_tuple_destructure st)
  | .rControlFlow, st => .ok (demo_control_flow st)
  | .rRandomVariable, st => .ok (demo_random_variable st)
  | .rResultWithErrorHandling, st => .ok (demo_result_with_error_handling st)
  | .rStringAppend, st => .ok (demo_string_append st)
  | .rInput, st => .ok (demo_input st)
  | .rOutput, st => .ok (demo_output st)
  | .rConvertAStringToANumber, st => demo_convert_run st
  | .rFilePathToString, st => demo_file_path_to_string st

/-- Running a list of routines in order, stopping at the first panic. -/
def runSeq : List Routine → DemoState → Except (String × DemoState) DemoState
  | [], st => .ok st
  | r :: rs, st =>
    match routineSem r st with
    | .ok st' => runSeq rs st'
    | .error e => .error e

/-- The ordered list of routine calls in the body of main_run (main.rs lines
564-578), written in source order. -/
def main_run_routines : List Routine :=
  [.rPrintln, .rCompare, .rShadow, .rArrayAccess, .rTupleDestructure,
   .rControlFlow, .rRandomVariable, .rResultWithErrorHandling,
   .rStringAppend, .rInput, .rOutput, .rConvertAStringToANumber]

/-- Modelled from the spec: the ordered routine list of section 4.3 of the
specification, for comparison with the list the code executes.  The two reads
from standard input are both inside the read-line routine, and the list ends
with the routine that reads the text resource into a string. -/
def specRunRoutines : List Routine :=
  [.rPrintln, .rCompare, .rShadow, .rArrayAccess, .rTupleDestructure,
   .rControlFlow, .rRandomVariable, .rResultWithErrorHandling,
   .rStringAppend, .rInput, .rFilePathToString]

/-- Embeds main_run (main.rs lines 564-578): the routine calls in source
order, one after the other, with no branching on their outcomes; the chain
stops only if a routine panics. -/
def main_run (st : DemoState) : Except (String × DemoState) DemoState :=
  let st := demo_println st
  let st := demo_compare st
  let st := demo_shadow st
  let st := demo_array_access st
  let st := demo_tuple_destructure st
  let st := demo_control_flow st
  let st := demo_random_variable st
  let st := demo_result_with_error_handling st
  let st := demo_string_append st
  let st := demo_input st
  let st := demo_output st
  demo_convert_run st

/-- How the process terminates: a normal exit with a code, or a panic whose
message the runtime writes to the error stream before terminating with the
panic exit status. -/
inductive Outcome where
  | exit (code : Nat)
  | panicked (msg : String)
deriving DecidableEq

/-- Observable result of one process invocation: the termination outcome and
everything written to standard output. -/
structure ProcResult where
  outcome : Outcome
  stdout : String
deriving DecidableEq

/-- Modelled from the spec: the usage text printed by main_help, a brief line
naming the program followed by the getopts rendering of the two flags; the
exact formatting lives in the external getopts crate. -/
def helpText (program : String) : String :=
  "Help: " ++ program ++ " [options]\n\nOptions:\n" ++
  "    -h, --help      print the help information\n" ++
  "    -v, --version   print the version number\n"

/-- Result of the run path of main_getopts: invoke the Demo Runner on the
given environment and exit 0 when it completes; a panic inside the runner
terminates the process abnormally with the output produced so far. -/
def mainRunResult (stdin : List String) (fs : Option String) (rng : Nat) : ProcResult :=
  match main_run { stdout := "", stdin := stdin, fs := fs, rng := rng } with
  | .ok st => { outcome := .exit 0, stdout := st.stdout }
  | .error (m, st) => { outcome := .panicked m, stdout := st.stdout }

/-- Embeds the whole program (main, main_error_chain, main_getopts, main_help,
main_version, main_run; main.rs lines 500-587) on the argument list after the
program name.  A parse failure panics with the failure rendered as a string
(main.rs line 548), so the Err branch of main_error_chain, which would exit
with code 1, is unreachable: main_getopts only ever returns Ok.  The help and
version paths print their text and the process then exits 0. -/
def programRun (args : List String) (stdin : List String) (fs : Option String)
    (rng : Nat) (program : String) : ProcResult :=
  match optsParse args with
  | .error f => { outcome := .panicked f.to_string, stdout := "" }
  | .ok m =>
    if m.help then { outcome := .exit 0, stdout := helpText program }
    else if m.version then { outcome := .exit 0, stdout := "x.y.z\n" }
    else mainRunResult stdin fs rng

/-- One string mentions another when the second occurs contiguously inside the
first. -/
def stringMentions (msg tok : String) : Prop :=
  ∃ pre post, msg = pre ++ tok ++ post

/-- A help token is never a version token. -/
theorem help_not_version (t : String) (h : isHelpTok t = true) : isVersionTok t = false := by
  have h2 : t = "-h" ∨ t = "--help" := by simpa [isHelpTok] using h
  rcases h2 with ht | ht
  · subst ht; rfl
  · subst ht; rfl

/-- On an argument list whose tokens are all recognized flags, the parse
succeeds and records exactly which of the two flags occur. -/
theorem optsParse_wf (args : List String) (hwf : ∀ t ∈ args, isRecognized t = true) :
    optsParse args = .ok { help := args.any isHelpTok, version := args.any isVersionTok } := by
  induction args with
  | nil => rfl
  | cons t ts ih =>
    have hts : ∀ u ∈ ts, isRecognized u = true := fun u hu => hwf u (List.mem_cons_of_mem _ hu)
    have ht : isRecognized t = true := hwf t (List.mem_cons_self t ts)
    by_cases h1 : isHelpTok t = true
    · simp [optsParse, h1, ih hts, List.any_cons, help_not_version t h1]
    · by_cases h2 : isVersionTok t = true
      · simp [optsParse, h1, h2, ih hts, List.any_cons]
      · exact absurd ht (by simp [isRecognized, h1, h2])

/-- On an argument list containing an unrecognized token, the parse fails and
the failure carries an unrecognized token of the list. -/
theorem optsParse_unknown (args : List String) (t : String) (ht : t ∈ args)
    (hu : isRecognized t = false) :
    ∃ u, u ∈ args ∧ isRecognized u = false ∧ optsParse args = .error (.UnknownOption u) := by
  induction args with
  | nil => cases ht
  | cons a as ih =>
    by_cases h1 : isHelpTok a = true
    · have hta : t ≠ a := by
        intro e; subst e
        simp [isRecognized, h1] at hu
      have ht' : t ∈ as := by
        rcases List.mem_cons.mp ht with e | m
        · exact absurd e hta
        · exact m
      obtain ⟨u, hmem, hur, heq⟩ := ih ht'
      exact ⟨u, List.mem_cons_of_mem _ hmem, hur, by simp [optsParse, h1, heq]⟩
    · by_cases h2 : isVersionTok a = true
      · have hta : t ≠ a := by
          intro e; subst e
          simp [isRecognized, h2] at hu
        have ht' : t ∈ as := by
          rcases List.mem_cons.mp ht with e | m
          · exact absurd e hta
          · exact m
        obtain ⟨u, hmem, hur, heq⟩ := ih ht'
        exact ⟨u, List.mem_cons_of_mem _ hmem, hur, by simp [optsParse, h1, h2, heq]⟩
      · refine ⟨a, List.mem_cons_self a as, by simp [isRecognized, h1, h2], ?_⟩
        simp [optsParse, h1, h2]

/-- A parse failure propagates to the request decided by main_getopts. -/
theorem main_getopts_request_error (args : List String) (f : ParseError)
    (h : optsParse args = .error f) : main_getopts_request args = .error f := by
  simp [main_getopts_request, h]

/-- On an argument list whose tokens are all recognized flags, the request is
decided by flag presence, help first. -/
theorem main_getopts_request_wf (args : List String)
    (hwf : ∀ t ∈ args, isRecognized t = true) :
    main_getopts_request args =
      .ok (if args.any isHelpTok then .Help
           else if args.any isVersionTok then .Version
           else .Run) := by
  simp [main_getopts_request, optsParse_wf args hwf]
  by_cases h1 : ∃ x ∈ args, isHelpTok x = true
  · simp [h1]
  · by_cases h2 : ∃ x ∈ args, isVersionTok x = true
    · simp [h1, h2]
    · simp [h1, h2]

/-- A recognized flag repeated n times forms a list of recognized flags whose
flag presence equals that of the single flag. -/
theorem any_replicate_pos (p : String → Bool) (f : String) :
    ∀ n, 1 ≤ n → (List.replicate n f).any p = p f := by
  intro n
  induction n with
  | zero => intro h; exact absurd h (by omega)
  | succ m ih =>
    intro _
    rw [List.replicate_succ, List.any_cons]
    cases Nat.eq_zero_or_pos m with
    | inl h0 => subst h0; simp
    | inr hpos => rw [ih hpos]; exact Bool.or_self (p f)

/-- The expect of demo_convert_a_string_to_a_number never fires: its value is
the successful parse of the trimmed text. -/
theorem convert_value_ok : convert_value = .ok 123 := rfl

/-- C1: for every argument list containing a token that is none of -h, --help,
-v, --version, the option parser fails with a parse error naming an offending
token of the list (the first such token); in particular no list containing a
non-flag token is accepted. -/
theorem spec_c1_unknown_token_fails (args : List String) (t : String)
    (ht : t ∈ args) (hu : isRecognized t = false) :
    ∃ u, u ∈ args ∧ isRecognized u = false ∧
      main_getopts_request args = .error (.UnknownOption u) := by
  obtain ⟨u, hm, hr, he⟩ := optsParse_unknown args t ht hu
  exact ⟨u, hm, hr, main_getopts_request_error args _ he⟩

/-- Witness for C1 at the argument list containing only --bogus. -/
theorem spec_c1_unknown_token_fails_witness :
    "--bogus" ∈ ["--bogus"] ∧ isRecognized "--bogus" = false ∧
    ∃ u, u ∈ ["--bogus"] ∧ isRecognized u = false ∧
      main_getopts_request ["--bogus"] = .error (.UnknownOption u) :=
  ⟨by decide, by decide,
   spec_c1_unknown_token_fails ["--bogus"] "--bogus" (by decide) (by decide)⟩

/-- C2 counterexample: invoked with the single argument --bogus, the process
panics out of main_getopts (main.rs line 548), so its outcome is the panic
carrying the diagnostic and not a normal exit with code 1 as the claim
states. -/
theorem spec_c2_bogus_not_exit1_counterexample :
    (programRun ["--bogus"] [] none 0 "demo").outcome =
      .panicked "Unrecognized option: --bogus" ∧
    (programRun ["--bogus"] [] none 0 "demo").outcome ≠ .exit 1 :=
  ⟨by decide, by decide⟩

/-- C2 amended: when option parsing fails on the single argument --bogus, the
process writes nothing to standard output and terminates abnormally through a
panic whose message, written to the error stream by the runtime, mentions the
offending token; the error-chain branch that would exit with code 1 is never
reached because main_getopts panics instead of returning the failure. -/
theorem spec_c2_bogus_panics_amended :
    programRun ["--bogus"] [] none 0 "demo" =
      { outcome := .panicked "Unrecognized option: --bogus", stdout := "" } ∧
    stringMentions "Unrecognized option: --bogus" "--bogus" :=
  ⟨by decide, ⟨"Unrecognized option: ", "", by decide⟩⟩

/-- C3: for every argument list of recognized flags that contains -h or --help
in any position, the decided request is Help, irrespective of the other
well-formed flags present. -/
theorem spec_c3_help_priority (args : List String)
    (hwf : ∀ t ∈ args, isRecognized t = true)
    (hh : ∃ t, t ∈ args ∧ isHelpTok t = true) :
    main_getopts_request args = .ok .Help := by
  rw [main_getopts_request_wf args hwf]
  obtain ⟨t, hm, htok⟩ := hh
  have hany : args.any isHelpTok = true := List.any_eq_true.mpr ⟨t, hm, htok⟩
  rw [hany]
  rfl

/-- Witness for C3 at a list where the help flag follows a version flag. -/
theorem spec_c3_help_priority_witness :
    main_getopts_request ["-v", "--help"] = .ok .Help :=
  spec_c3_help_priority ["-v", "--help"] (by decide) ⟨"--help", by decide, by decide⟩

/-- C4 counterexample: the list containing -v together with the unrecognized
token --bogus contains -v and no help flag, yet the parse fails, so the
decided request is not Version as the claim, quantified over every such list,
states. -/
theorem spec_c4_version_with_unknown_counterexample :
    main_getopts_request ["-v", "--bogus"] = .error (.UnknownOption "--bogus") ∧
    main_getopts_request ["-v", "--bogus"] ≠ .ok .Version :=
  ⟨rfl, fun h => Except.noConfusion h⟩

/-- C4 amended: for every argument list of recognized flags containing -v or
--version and no -h or --help, the decided request is Version; and invoking
the program with the single argument --version prints exactly the version
string and a newline to standard output and exits 0. -/
theorem spec_c4_version_amended (args stdinL : List String) (fs : Option String)
    (rng : Nat) (program : String)
    (hwf : ∀ t ∈ args, isRecognized t = true)
    (hv : ∃ t, t ∈ args ∧ isVersionTok t = true)
    (hnh : ∀ t ∈ args, isHelpTok t = false) :
    main_getopts_request args = .ok .Version ∧
    programRun ["--version"] stdinL fs rng program =
      { outcome := .exit 0, stdout := "x.y.z\n" } := by
  constructor
  · rw [main_getopts_request_wf args hwf]
    have h1 : args.any isHelpTok = false :=
      List.any_eq_false.mpr (fun x hx => by simp [hnh x hx])
    obtain ⟨t, hm, htok⟩ := hv
    have h2 : args.any isVersionTok = true := List.any_eq_true.mpr ⟨t, hm, htok⟩
    rw [h1, h2]
    rfl
  · rfl

/-- Witness for C4 amended at the argument list containing only --version. -/
theorem spec_c4_version_amended_witness :
    main_getopts_request ["--version"] = .ok .Version ∧
    programRun ["--version"] [] none 0 "demo" =
      { outcome := .exit 0, stdout := "x.y.z\n" } :=
  spec_c4_version_amended ["--version"] [] none 0 "demo" (by decide)
    ⟨"--version", by decide, by decide⟩ (by decide)

/-- C5: for the empty argument list the decided request is Run, and the
program dispatches to the Demo Runner on its environment. -/
theorem spec_c5_empty_args_run (stdinL : List String) (fs : Option String)
    (rng : Nat) (program : String) :
    main_getopts_request [] = .ok .Run ∧
    programRun [] stdinL fs rng program = mainRunResult stdinL fs rng :=
  ⟨rfl, rfl⟩

/-- C6: a recognized flag given any positive number of times decides the same
request as the flag given once; in particular -h twice behaves as -h once. -/
theorem spec_c6_flag_idempotent (f : String) (n : Nat) (hf : isRecognized f = true)
    (hn : 1 ≤ n) :
    main_getopts_request (List.replicate n f) = main_getopts_request [f] := by
  have hwf1 : ∀ t ∈ List.replicate n f, isRecognized t = true := by
    intro t htm
    rw [List.eq_of_mem_replicate htm]
    exact hf
  have hwf2 : ∀ t ∈ [f], isRecognized t = true := by
    intro t htm
    rw [List.mem_singleton.mp htm]
    exact hf
  rw [main_getopts_request_wf _ hwf1, main_getopts_request_wf _ hwf2]
  rw [any_replicate_pos isHelpTok f n hn, any_replicate_pos isVersionTok f n hn]
  simp [List.any_cons]

/-- Witness for C6: the list with -h twice decides the same request as -h
once. -/
theorem spec_c6_flag_idempotent_witness :
    List.replicate 2 "-h" = ["-h", "-h"] ∧
    main_getopts_request ["-h", "-h"] = main_getopts_request ["-h"] :=
  ⟨rfl, spec_c6_flag_idempotent "-h" 2 (by decide) (by decide)⟩

/-- C7 counterexample: the routine list executed by main_run does not contain
the routine that reads the text resource into a string, its last routine is
not that routine, and on an environment without the resource file the
sequence the specification lists behaves differently from main_run at that
concrete state (the listed sequence panics, main_run completes). -/
theorem spec_c7_sequence_counterexample :
    Routine.rFilePathToString ∉ main_run_routines ∧
    main_run_routines.getLast? ≠ some Routine.rFilePathToString ∧
    runSeq specRunRoutines { stdout := "", stdin := [], fs := none, rng := 0 } ≠
      main_run { stdout := "", stdin := [], fs := none, rng := 0 } :=
  ⟨by decide, by decide, fun h => Except.noConfusion h⟩

/-- C7 amended: on the Run path the Demo Runner executes exactly the fixed
ordered sequence demo_println, demo_compare, demo_shadow, demo_array_access,
demo_tuple_destructure, demo_control_flow, demo_random_variable,
demo_result_with_error_handling, demo_string_append, demo_input, demo_output,
demo_convert_a_string_to_a_number, with no branching on routine outcomes; the
routine that reads the text resource file is defined in the source but never
invoked, so the sequence does not end with it. -/
theorem spec_c7_sequence_amended (st : DemoState) :
    main_run st =
      runSeq [Routine.rPrintln, Routine.rCompare, Routine.rShadow,
              Routine.rArrayAccess, Routine.rTupleDestructure,
              Routine.rControlFlow, Routine.rRandomVariable,
              Routine.rResultWithErrorHandling, Routine.rStringAppend,
              Routine.rInput, Routine.rOutput,
              Routine.rConvertAStringToANumber] st :=
  rfl

/-- C8 counterexample: invoked with no arguments in an environment where the
resource file is absent and standard input supplies two lines, the process
completes the demo sequence and exits 0; it does not abort for the missing
file, contrary to the claim. -/
theorem spec_c8_absent_file_counterexample :
    (programRun [] ["first line", "second line"] none 0 "demo").outcome = .exit 0 ∧
    (programRun [] ["first line", "second line"] none 0 "demo").outcome ≠
      .panicked "file open failed" :=
  ⟨by decide, by decide⟩

/-- C8 amended: invoked with no arguments the program runs the full demo
sequence and exits 0 for every standard input and every state of the resource
file; the file-reading routine is never invoked on this path, so the absence
of the file cannot abort the run. -/
theorem spec_c8_run_exits_zero_amended (stdinL : List String) (fs : Option String)
    (rng : Nat) (program : String) :
    (programRun [] stdinL fs rng program).outcome = .exit 0 ∧
    Routine.rFilePathToString ∉ main_run_routines :=
  ⟨rfl, by decide⟩

/-- C9: the parse-with-fallback routine is total and never panics: a failed
parse is mapped to the fallback 0, a successful parse to its number, the
fixed input text yields 123, and the routine always completes as a step of
the runner. -/
theorem spec_c9_fallback_total :
    (∀ s, parseU32 s = none → fallbackParse s = 0) ∧
    (∀ s n, parseU32 s = some n → fallbackParse s = n) ∧
    fallbackParse "123" = 123 ∧
    (∀ st, routineSem Routine.rResultWithErrorHandling st =
      .ok (demo_result_with_error_handling st)) := by
  refine ⟨?_, ?_, by decide, fun st => rfl⟩
  · intro s h
    simp [fallbackParse, h]
  · intro s n h
    simp [fallbackParse, h]

/-- Witness for C9 at a failing parse input and at the fixed input. -/
theorem spec_c9_fallback_total_witness :
    parseU32 "12a" = none ∧ fallbackParse "12a" = 0 ∧
    parseU32 "123" = some 123 ∧ fallbackParse "123" = 123 :=
  ⟨by decide, spec_c9_fallback_total.1 "12a" (by decide), by decide,
   spec_c9_fallback_total.2.1 "123" 123 (by decide)⟩

/-- C10: the crash branch of the convert routine is unreachable: the fixed
input trims to the digit string, which parses as u32 to 123, so the expect
succeeds and the routine never terminates the process. -/
theorem spec_c10_convert_no_crash :
    rustTrim "  123  " = "123" ∧
    parseU32 (rustTrim "  123  ") = some 123 ∧
    convert_value = .ok 123 ∧
    (∀ st, routineSem Routine.rConvertAStringToANumber st = .ok st) :=
  ⟨by decide, by decide, convert_value_ok, fun st => rfl⟩

end DemoRust
